import Mathlib

/-!
Shallow embedding of the med_study React client (view-layer handlers and
state transitions) and proofs about its behaviour.

Naming convention: each namespace corresponds to one page component:
* `Dash`    — the Dashboard component (PDF upload with abort support)
* `Login`   — the Login page
* `Study`   — the Study_session page (summary generation, quiz launch)
* `UploadP` — the Upload_pdfs page (multi-file upload, task polling)
* `Quiz5`   — the current Quiz page implementation
* `QuizJsx` — the older Quiz page implementation (client/src/pages/Quiz.jsx)

JS-value conventions used throughout: JS objects used as string-keyed maps
become association lists read through `jsGet` (first match wins, matching
spread-override `{...m, [k]: v}` modelled as prepend); absent values are
`Option.none`; JS truthiness of the values that actually occur (strings,
numbers, booleans, undefined) is modelled by the explicit tests the code
performs.
-/

/-- JS object lookup `m[k]`: first binding wins. -/
def jsGet {α : Type} (m : List (String × α)) (k : String) : Option α :=
  (m.find? (fun p => p.1 == k)).map (·.2)

/-- JS spread-override `{...m, [k]: v}`. -/
def jsSet {α : Type} (m : List (String × α)) (k : String) (v : α) : List (String × α) :=
  (k, v) :: m

/-- JS `x || d` for an optional number: `undefined`/`NaN` and `0` are falsy. -/
def jsOrInt (x : Option Int) (d : Int) : Int :=
  match x with
  | none => d
  | some v => if v = 0 then d else v

/-- JS `s || d` for strings: the empty string is falsy. -/
def jsOrString (s d : String) : String :=
  if s = "" then d else s

/-- Leading decimal digits of a character list. -/
def leadingDigits (cs : List Char) : List Char :=
  cs.takeWhile Char.isDigit

/-- Value of a list of decimal digits. -/
def digitsToNat (ds : List Char) : Nat :=
  ds.foldl (fun a c => a * 10 + (c.toNat - 48)) 0

/-- JS `parseInt` on a string (base 10): parses an optional sign followed by
leading digits, ignoring trailing garbage; `none` is `NaN`. -/
def jsParseInt (s : String) : Option Int :=
  match s.data with
  | '-' :: rest =>
      let ds := leadingDigits rest
      if ds.isEmpty then none else some (-(digitsToNat ds : Int))
  | cs =>
      let ds := leadingDigits cs
      if ds.isEmpty then none else some (digitsToNat ds : Int)

/-- JS `parseInt` applied to a possibly-`null` value
(`parseInt(null)` is `NaN`). -/
def jsParseIntOpt (s : Option String) : Option Int :=
  s.bind jsParseInt

/-- JS `Boolean.prototype.toString`. -/
def jsBoolToString (b : Bool) : String :=
  if b then "true" else "false"

/-- Browser `sessionStorage`, modelled as an association list where
`setItem` shadows earlier bindings. -/
def Store : Type := List (String × String)

def Store.setItem (st : Store) (k v : String) : Store :=
  (k, v) :: st

def Store.getItem (st : Store) (k : String) : Option String :=
  (List.find? (fun p => p.1 == k) st).map (·.2)

/-- Model of a JS error object as observed by the catch handlers:
`name`, `response?.status`, `response?.data?.error`, `response?.data?.message`
and `message`. -/
structure ApiError where
  name : String
  status : Option Nat
  dataError : Option String
  dataMessage : Option String
  message : String

namespace Study

/-- `goToQuiz` (Study_session): stores the question count and quiz mode in
session storage and navigates to `/quiz`. -/
def goToQuiz (numQuestions : Nat) (isQuizMode : Bool) (st : Store) :
    Store × Option String :=
  ((st.setItem "numQuestions" (Nat.repr numQuestions)).setItem "isQuizMode"
      (jsBoolToString isQuizMode),
    some "/quiz")

/-- The `onChange` handler of the question-count field on the Study_session
page: `Math.max(1, Math.min(20, parseInt(e.target.value) || 1))`. -/
def numQuestionsOnChange (v : String) : Int :=
  max 1 (min 20 (jsOrInt (jsParseInt v) 1))

end Study

namespace Quiz5

/-- The Quiz page's read of the stored question count:
`parseInt(sessionStorage.getItem('numQuestions')) || 5`. -/
def readNumQuestions (st : Store) : Int :=
  jsOrInt (jsParseIntOpt (st.getItem "numQuestions")) 5

/-- The Quiz page's read of the stored quiz mode:
`sessionStorage.getItem('isQuizMode') === 'true'`. -/
def readIsQuizMode (st : Store) : Bool :=
  st.getItem "isQuizMode" == some "true"

end Quiz5

/-- A quiz question as held in the Quiz pages' `questions` state. Only the
fields the embedded handlers inspect are kept. -/
structure Question where
  id : String
  correctAnswer : Nat
  reason : String
  starred : Bool

namespace Quiz5

/-- `handleAnswerSelect` (current Quiz page): records the chosen option
index for a question unless that question's answer was already submitted. -/
def handleAnswerSelect (submittedAnswers : List (String × Bool))
    (selectedAnswers : List (String × Nat)) (questionId : String)
    (optionIndex : Nat) : List (String × Nat) :=
  if jsGet submittedAnswers questionId == some true then selectedAnswers
  else jsSet selectedAnswers questionId optionIndex

/-- The result record of `calculateStats`. -/
structure Stats where
  correct : Nat
  total : Nat
  percentage : Int

/-- JS `Math.round` on a (nonnegative, in our uses) rational:
round half away from zero, i.e. `⌊x + 1/2⌋` for `x ≥ -1/2`. -/
def jsRound (x : ℚ) : Int :=
  ⌊x + 1 / 2⌋

/-- Whether a question counts as correct in `calculateStats`:
`selectedAnswers[q.id] === q.correctAnswer`. -/
def statIsCorrect (selectedAnswers : List (String × Nat)) (q : Question) : Bool :=
  jsGet selectedAnswers q.id == some q.correctAnswer

/-- Whether a question counts as answered in `calculateStats`:
`submittedAnswers[q.id] === true`. -/
def statIsAnswered (submittedAnswers : List (String × Bool)) (q : Question) : Bool :=
  jsGet submittedAnswers q.id == some true

/-- `calculateStats` (current Quiz page): correct count, total count and the
reported percentage. `answeredQuestions` and `correctAnswers` are the
filters the code builds from `questionsWithStatus`. -/
def calculateStats (questions : List Question)
    (selectedAnswers : List (String × Nat))
    (submittedAnswers : List (String × Bool)) : Stats :=
  if questions.length = 0 then ⟨0, 0, 0⟩ else
  let answeredQuestions := questions.filter (statIsAnswered submittedAnswers)
  let correctAnswers := questions.filter
    (fun q => statIsCorrect selectedAnswers q && statIsAnswered submittedAnswers q)
  { correct := correctAnswers.length
    total := questions.length
    percentage :=
      if 0 < answeredQuestions.length then
        jsRound ((correctAnswers.length : ℚ) / (questions.length : ℚ) * 100)
      else 0 }

/-- The initial `isPreviewing` state of the Quiz page (`useState(true)`). -/
def initIsPreviewing : Bool := true

/-- The initial `submittedAnswers` state of the Quiz page (`useState({})`). -/
def initSubmittedAnswers : List (String × Bool) := []

end Quiz5

namespace QuizJsx

/-- `handleAnswerSelect` (older Quiz.jsx page): same guard, records the
chosen option unless the answer was already submitted. -/
def handleAnswerSelect (submittedAnswers : List (String × Bool))
    (selectedAnswers : List (String × Nat)) (questionId : String)
    (optionIndex : Nat) : List (String × Nat) :=
  if jsGet submittedAnswers questionId == some true then selectedAnswers
  else jsSet selectedAnswers questionId optionIndex

end QuizJsx

/-- Spec-side count of questions whose answer has been submitted. -/
def countSubmitted (questions : List Question)
    (submittedAnswers : List (String × Bool)) : Nat :=
  questions.countP (fun q => jsGet submittedAnswers q.id == some true)

/-- Spec-side count of questions that were submitted and answered
correctly. -/
def countCorrectSubmitted (questions : List Question)
    (selectedAnswers : List (String × Nat))
    (submittedAnswers : List (String × Bool)) : Nat :=
  questions.countP (fun q =>
    (jsGet selectedAnswers q.id == some q.correctAnswer) &&
    (jsGet submittedAnswers q.id == some true))

namespace Study

/-- The Study_session state read by the button `disabled` expressions. -/
structure PageState where
  isContentLocked : Bool
  isUploading : Bool
  selectedPdfHashes : List String
  userText : String
  summary : String

/-- `disabled` of the Generate Summary button:
`isContentLocked || (selectedPdfHashes.length === 0 && !userText.trim()) || isUploading`. -/
def generateSummaryDisabled (s : PageState) : Bool :=
  s.isContentLocked ||
    (s.selectedPdfHashes.length == 0 && s.userText.trim == "") ||
    s.isUploading

/-- `disabled` of the Regenerate button: `!summary || isUploading`. -/
def regenerateDisabled (s : PageState) : Bool :=
  s.summary == "" || s.isUploading

/-- `disabled` of the Create Quiz button: `!summary || isUploading`. -/
def createQuizDisabled (s : PageState) : Bool :=
  s.summary == "" || s.isUploading

/-- `disabled` of the Clear button: `!summary || isUploading`. -/
def clearDisabled (s : PageState) : Bool :=
  s.summary == "" || s.isUploading

end Study

namespace UploadP

/-- A processing job as held in the `processingJobs` state. -/
structure Job where
  task_id : String
  filename : String
  status : String
  message : String

/-- The response of `/api/pdf-processing-status/<task_id>`. -/
structure StatusResp where
  success : Bool
  status : String
  message : String
  error : Option String

/-- The status-endpoint URL for a task. -/
def statusUrl (taskId : String) : String :=
  "/api/pdf-processing-status/" ++ taskId

/-- A job is terminal when its status is `SUCCESS` or `FAILURE`. -/
def isTerminal (j : Job) : Bool :=
  j.status == "SUCCESS" || j.status == "FAILURE"

/-- The polling interval in milliseconds (`setInterval(..., 3000)`). -/
def pollIntervalMs : Nat := 3000

/-- Whether the polling effect installs the interval at all
(`if (processingJobs.length > 0)`). -/
def pollingEnabled (jobs : List Job) : Bool :=
  decide (0 < jobs.length)

/-- One poll of one job inside the interval callback. Returns the updated
job together with the list of status requests issued for it. The network is
an environment mapping a task id to the call's outcome. -/
def pollJob (env : String → Except ApiError StatusResp) (j : Job) :
    Job × List String :=
  if j.status == "SUCCESS" || j.status == "FAILURE" then (j, [])
  else
    match env j.task_id with
    | .ok r =>
        if r.success then
          ({ j with status := r.status, message := r.message }, [statusUrl j.task_id])
        else
          ({ j with status := "FAILURE",
                    message := r.error.getD "Failed to get status." },
            [statusUrl j.task_id])
    | .error _ =>
        ({ j with status := "FAILURE",
                  message := "Network error or server unreachable." },
          [statusUrl j.task_id])

/-- One tick of the polling interval over the whole job list: the updated
list and every status request issued during the tick. -/
def pollTick (env : String → Except ApiError StatusResp) (jobs : List Job) :
    List Job × List String :=
  (jobs.map (fun j => (pollJob env j).1),
    jobs.flatMap (fun j => (pollJob env j).2))

/-- The slice of Upload_pdfs state touched by `handleFileSelect`. -/
structure SelectState where
  selectedFiles : List String
  error : String
  successMessage : String
  uploadedFilesReport : List String
  failedFilesReport : List String
  inputValue : Option String

/-- `handleFileSelect` (Upload_pdfs page): rejects selections of more than
5 files (clearing the input and the selection), otherwise stores the
selection and clears messages. The second component is the list of network
requests the handler issues (none). -/
def handleFileSelect (files : List String) (s : SelectState) :
    SelectState × List String :=
  if 5 < files.length then
    ({ s with
        error := "You can only upload up to 5 PDFs at once. Please select fewer files."
        inputValue := none
        selectedFiles := [] }, [])
  else
    ({ s with
        selectedFiles := files
        error := ""
        successMessage := ""
        uploadedFilesReport := []
        failedFilesReport := [] }, [])

/-- The initial Upload_pdfs selection state (`useState([])`, empty
messages, an untouched file input). -/
def initSelectState : SelectState :=
  { selectedFiles := []
    error := ""
    successMessage := ""
    uploadedFilesReport := []
    failedFilesReport := []
    inputValue := some "" }

/-- `handleUploadFiles` builds one request per selected file
(`selectedFiles.map` with a single file appended to each `FormData`); the
upload batch started from state `s` is therefore this list of one-element
file lists. -/
def uploadBatch (s : SelectState) : List (List String) :=
  s.selectedFiles.map (fun f => [f])

/-- Fold a sequence of file-selection events from the initial state. -/
def runSelects (selects : List (List String)) : SelectState :=
  selects.foldl (fun s fs => (handleFileSelect fs s).1) initSelectState

end UploadP

namespace Dash

/-- The Dashboard state touched by `uploadPDFs` / `cancelUpload`, plus the
observable side effects (authentication flag, navigation target, number of
`/api/cleanup` calls). -/
structure State where
  files : List String
  progress : Nat
  error : String
  isUploading : Bool
  summary : String
  hasAbortController : Bool
  isAuthenticated : Bool
  nav : Option String
  cleanupCalls : Nat

/-- Outcome of the `/api/upload-multiple` request as seen by `uploadPDFs`:
either a response with a `success` flag and `results` text, or a thrown
error. -/
inductive UploadOutcome where
  | resp (success : Bool) (results : String)
  | err (e : ApiError)

/-- `uploadPDFs` (Dashboard): guard on an empty selection, then the
try/catch/finally around the upload request, run to completion against a
given outcome. -/
def uploadPDFs (s : State) (o : UploadOutcome) : State :=
  if s.files.length = 0 then
    { s with error := "Please select at least one file first" }
  else
    let s1 := { s with
      isUploading := true
      progress := 0
      error := ""
      summary := ""
      hasAbortController := true }
    let s2 :=
      match o with
      | .resp true results => { s1 with summary := results }
      | .resp false _ => { s1 with error := "Text extraction failed" }
      | .err e =>
          if e.name == "AbortError" then
            { s1 with error := "Upload cancelled", cleanupCalls := s1.cleanupCalls + 1 }
          else if e.status == some 401 then
            { s1 with
                error := "Session expired. Please log in again."
                cleanupCalls := s1.cleanupCalls + 1
                isAuthenticated := false
                nav := some "/login" }
          else
            { s1 with error := e.dataError.getD e.message }
    { s2 with isUploading := false }

/-- `cancelUpload` (Dashboard): when an abort controller exists, abort the
in-flight request, show `Upload cancelled`, leave the uploading state and
call cleanup. The boolean reports whether `abort()` was invoked. -/
def cancelUpload (s : State) : State × Bool :=
  if s.hasAbortController then
    ({ s with
        error := "Upload cancelled"
        isUploading := false
        cleanupCalls := s.cleanupCalls + 1 }, true)
  else (s, false)

/-- The catch handler of `regenerateSummary` (Dashboard):
`setError(err.response?.data?.error || 'Failed to regenerate summary')`,
no redirect and no auth change. -/
def regenerateSummaryCatch (e : ApiError) (s : State) : State :=
  { s with error := e.dataError.getD "Failed to regenerate summary" }

end Dash

namespace Quiz5

/-- Response of `GET /api/get-quiz`. -/
structure GetQuizResp where
  success : Bool
  questions : List Question

/-- Response of `POST /api/generate-quiz`. -/
structure GenQuizResp where
  success : Bool
  questions : Option (List Question)
  error : Option String
  content_hash : Option String
  short_summary : Option String

/-- Result of the mount-time quiz fetch: final component state plus the
ordered list of quiz requests issued. -/
structure FetchResult where
  questions : List Question
  error : String
  contentHash : String
  shortSummary : String
  isLoading : Bool
  requests : List String

/-- The mount effect of the Quiz page around `fetchQuiz`: do nothing when
no summary is present; otherwise try `GET /api/get-quiz` first and call
`POST /api/generate-quiz` only in its else-branch. The two `Except`
arguments are the outcomes the network would give each request. -/
def fetchQuizMount (summary : String)
    (existing : Except ApiError GetQuizResp)
    (gen : Except ApiError GenQuizResp) : FetchResult :=
  if summary == "" then
    { questions := [], error := "", contentHash := "", shortSummary := ""
      isLoading := false, requests := [] }
  else
    match existing with
    | .error e =>
        { questions := [], contentHash := "", shortSummary := ""
          error := e.dataError.getD "Failed to generate quiz questions"
          isLoading := false, requests := ["/api/get-quiz"] }
    | .ok ex =>
        if ex.success && decide (0 < ex.questions.length) then
          { questions := ex.questions, error := "", contentHash := ""
            shortSummary := "", isLoading := false, requests := ["/api/get-quiz"] }
        else
          match gen with
          | .error e =>
              { questions := [], contentHash := "", shortSummary := ""
                error := e.dataError.getD "Failed to generate quiz questions"
                isLoading := false
                requests := ["/api/get-quiz", "/api/generate-quiz"] }
          | .ok g =>
              match g.questions, g.success with
              | some qs, true =>
                  { questions := qs, error := "", contentHash := ""
                    shortSummary := g.short_summary.getD ""
                    isLoading := false
                    requests := ["/api/get-quiz", "/api/generate-quiz"] }
              | _, _ =>
                  if g.error == some "Quiz set already exists" then
                    { questions := [], shortSummary := ""
                      error := "Quiz set for that material already exists. Here it is!"
                      contentHash := g.content_hash.getD ""
                      isLoading := false
                      requests := ["/api/get-quiz", "/api/generate-quiz"] }
                  else
                    { questions := [], contentHash := "", shortSummary := ""
                      error := "Failed to generate quiz questions"
                      isLoading := false
                      requests := ["/api/get-quiz", "/api/generate-quiz"] }

end Quiz5

/-- The authentication-related observables every catch handler can touch:
the alert message, the `isAuthenticated` flag and the navigation target. -/
structure AuthView where
  error : String
  isAuthenticated : Bool
  nav : Option String

namespace Login

/-- The catch handler of the Login page's `handleSubmit`: a 401 means
invalid credentials and shows an alert, with no redirect and no change to
the authenticated flag. -/
def handleSubmitCatch (e : ApiError) (v : AuthView) : AuthView :=
  if e.status == some 401 then
    { v with error := "Invalid credentials" }
  else
    { v with error := e.dataMessage.getD "Login failed" }

end Login

namespace Study

/-- The catch handler of `fetchAvailablePdfs` (Study_session): 401 clears
the authenticated flag and navigates to `/login`. -/
def fetchAvailablePdfsCatch (e : ApiError) (v : AuthView) : AuthView :=
  if e.status == some 401 then
    { error := "Session expired. Please log in again."
      isAuthenticated := false
      nav := some "/login" }
  else
    { v with error := "An error occurred while fetching available PDFs." }

/-- The catch handler of `generateSummary` (Study_session): abort, 401 and
generic branches. -/
def generateSummaryCatch (e : ApiError) (v : AuthView) : AuthView :=
  if e.name == "AbortError" then
    { v with error := "Processing cancelled" }
  else if e.status == some 401 then
    { error := "Session expired. Please log in again."
      isAuthenticated := false
      nav := some "/login" }
  else
    { v with error := jsOrString e.message "An unknown error occurred" }

/-- The catch handler of `regenerateSummary` (Study_session): always just
an alert message, never a redirect. -/
def regenerateSummaryCatch (e : ApiError) (v : AuthView) : AuthView :=
  { v with
      error := jsOrString e.message "An unknown error occurred during regeneration" }

end Study

namespace UploadP

/-- The catch handler of `handleUploadFiles` (Upload_pdfs): 401 clears the
authenticated flag and navigates to `/login`. -/
def handleUploadFilesCatch (e : ApiError) (v : AuthView) : AuthView :=
  if e.status == some 401 then
    { error := "Session expired. Please log in again."
      isAuthenticated := false
      nav := some "/login" }
  else
    { v with error := e.dataError.getD "An unknown error occurred during upload." }

end UploadP

namespace Dash

/-- A file chosen in the Dashboard's file input: its name and MIME type. -/
structure FileInput where
  name : String
  fileType : String

/-- `handleFileSelect` (Dashboard): keeps only the files whose type is
`application/pdf`; when the selection contains at least one PDF it is
stored (filtered) and the error cleared, otherwise the selection is
cleared and an error shown. Returns the new `files` state and the new
`error` message. -/
def handleFileSelect (selected : List FileInput) : List FileInput × String :=
  let pdfFiles := selected.filter (fun f => f.fileType == "application/pdf")
  if 0 < pdfFiles.length then (pdfFiles, "")
  else ([], "Please select at least one PDF file")

end Dash

section StoreLemmas

theorem Store.getItem_setItem_self (st : Store) (k v : String) :
    (st.setItem k v).getItem k = some v := by
  simp [Store.getItem, Store.setItem, List.find?]

theorem Store.getItem_setItem_ne (st : Store) (k k' v : String) (h : (k == k') = false) :
    (st.setItem k v).getItem k' = st.getItem k' := by
  simp [Store.getItem, Store.setItem, List.find?, h]

end StoreLemmas

/-- Claim C2: the upload page polls `/api/pdf-processing-status/<task_id>`
on a fixed 3-second interval; a tick issues exactly one status request for
a job whose status is not terminal, and a job whose status is terminal
(`SUCCESS` or `FAILURE`) is left unchanged with no status request, so
polling for that job stops. -/
theorem polling_fixed_interval_until_terminal :
    UploadP.pollIntervalMs = 3000 ∧
    (∀ (env : String → Except ApiError UploadP.StatusResp) (j : UploadP.Job),
      UploadP.isTerminal j = false →
        (UploadP.pollJob env j).2 = [UploadP.statusUrl j.task_id]) ∧
    (∀ (env : String → Except ApiError UploadP.StatusResp) (j : UploadP.Job),
      UploadP.isTerminal j = true → UploadP.pollJob env j = (j, [])) := by
  refine ⟨rfl, ?_, ?_⟩
  · intro env j h
    unfold UploadP.pollJob
    rw [if_neg (by simp [UploadP.isTerminal] at h; simp [h])]
    rcases env j.task_id with e | r
    · rfl
    · by_cases hr : r.success = true <;> simp [hr]
  · intro env j h
    unfold UploadP.pollJob
    rw [if_pos (by simpa [UploadP.isTerminal] using h)]

/-- Witness for C2 at a concrete pending job and a concrete finished job. -/
theorem polling_fixed_interval_until_terminal_witness :
    (UploadP.pollJob (fun _ => .ok ⟨true, "STARTED", "working", none⟩)
        ⟨"t1", "a.pdf", "PENDING", "queued"⟩).2 =
      [UploadP.statusUrl "t1"] ∧
    UploadP.pollJob (fun _ => .ok ⟨true, "STARTED", "working", none⟩)
        ⟨"t2", "b.pdf", "SUCCESS", "done"⟩ =
      (⟨"t2", "b.pdf", "SUCCESS", "done"⟩, []) :=
  ⟨polling_fixed_interval_until_terminal.2.1 _ _ (by decide),
   polling_fixed_interval_until_terminal.2.2 _ _ (by decide)⟩

/-- Claim C3: cancelling an in-flight upload on the Dashboard aborts the
request through the abort controller, shows `Upload cancelled`, leaves the
uploading state, and an upload ending in an abort error sets no summary. -/
theorem cancel_upload_aborts_and_sets_message (s : Dash.State) (e : ApiError)
    (hctrl : s.hasAbortController = true) (hfiles : s.files.length ≠ 0)
    (habort : e.name = "AbortError") :
    (Dash.cancelUpload s).2 = true ∧
    (Dash.cancelUpload s).1.error = "Upload cancelled" ∧
    (Dash.cancelUpload s).1.isUploading = false ∧
    (Dash.uploadPDFs s (.err e)).error = "Upload cancelled" ∧
    (Dash.uploadPDFs s (.err e)).isUploading = false ∧
    (Dash.uploadPDFs s (.err e)).summary = "" := by
  simp [Dash.cancelUpload, Dash.uploadPDFs, hctrl, hfiles, habort]

/-- Witness for C3 at a concrete uploading Dashboard state. -/
theorem cancel_upload_aborts_and_sets_message_witness :
    (Dash.cancelUpload ⟨["a.pdf"], 40, "", true, "", true, true, none, 0⟩).2 = true ∧
    (Dash.cancelUpload ⟨["a.pdf"], 40, "", true, "", true, true, none, 0⟩).1.error =
      "Upload cancelled" ∧
    (Dash.cancelUpload ⟨["a.pdf"], 40, "", true, "", true, true, none, 0⟩).1.isUploading =
      false ∧
    (Dash.uploadPDFs ⟨["a.pdf"], 40, "", true, "", true, true, none, 0⟩
        (.err ⟨"AbortError", none, none, none, "canceled"⟩)).error = "Upload cancelled" ∧
    (Dash.uploadPDFs ⟨["a.pdf"], 40, "", true, "", true, true, none, 0⟩
        (.err ⟨"AbortError", none, none, none, "canceled"⟩)).isUploading = false ∧
    (Dash.uploadPDFs ⟨["a.pdf"], 40, "", true, "", true, true, none, 0⟩
        (.err ⟨"AbortError", none, none, none, "canceled"⟩)).summary = "" :=
  cancel_upload_aborts_and_sets_message _ _ rfl (by decide) rfl

/-- Claim C6: while `isUploading` is true on the study-session page, the
Generate Summary, Regenerate, Create Quiz and Clear buttons are all
disabled. -/
theorem buttons_disabled_while_uploading (s : Study.PageState)
    (h : s.isUploading = true) :
    Study.generateSummaryDisabled s = true ∧
    Study.regenerateDisabled s = true ∧
    Study.createQuizDisabled s = true ∧
    Study.clearDisabled s = true := by
  simp [Study.generateSummaryDisabled, Study.regenerateDisabled,
    Study.createQuizDisabled, Study.clearDisabled, h]

/-- Witness for C6 at a concrete uploading page state. -/
theorem buttons_disabled_while_uploading_witness :
    Study.generateSummaryDisabled ⟨false, true, ["h1"], "notes", "sum"⟩ = true ∧
    Study.regenerateDisabled ⟨false, true, ["h1"], "notes", "sum"⟩ = true ∧
    Study.createQuizDisabled ⟨false, true, ["h1"], "notes", "sum"⟩ = true ∧
    Study.clearDisabled ⟨false, true, ["h1"], "notes", "sum"⟩ = true :=
  buttons_disabled_while_uploading _ rfl

/-- Claim C8: once a question's answer is submitted, `handleAnswerSelect`
leaves the selected answers unchanged, in both quiz page implementations. -/
theorem submitted_answer_never_changes (submitted : List (String × Bool))
    (selected : List (String × Nat)) (qid : String) (idx : Nat)
    (h : jsGet submitted qid = some true) :
    Quiz5.handleAnswerSelect submitted selected qid idx = selected ∧
    QuizJsx.handleAnswerSelect submitted selected qid idx = selected := by
  constructor <;>
    simp [Quiz5.handleAnswerSelect, QuizJsx.handleAnswerSelect, h]

/-- Witness for C8 at a concrete submitted question. -/
theorem submitted_answer_never_changes_witness :
    Quiz5.handleAnswerSelect [("q1", true)] [("q1", 0)] "q1" 2 = [("q1", 0)] ∧
    QuizJsx.handleAnswerSelect [("q1", true)] [("q1", 0)] "q1" 2 = [("q1", 0)] :=
  submitted_answer_never_changes _ _ _ _ (by decide)

/-- Claim C5: the quiz mode and question count round-trip through session
storage: for every question count in 1..20 and every quiz mode, the values
stored by `goToQuiz` are read back unchanged by the quiz page, and 5 is the
default question count when nothing is stored. -/
theorem session_storage_roundtrip :
    (∀ (n : Nat), 1 ≤ n → n ≤ 20 → ∀ (b : Bool) (st : Store),
      Quiz5.readNumQuestions (Study.goToQuiz n b st).1 = (n : Int) ∧
      Quiz5.readIsQuizMode (Study.goToQuiz n b st).1 = b) ∧
    (∀ st : Store, st.getItem "numQuestions" = none →
      Quiz5.readNumQuestions st = 5) := by
  constructor
  · intro n h1 h2 b st
    have hnum : (Study.goToQuiz n b st).1.getItem "numQuestions" =
        some (Nat.repr n) := by
      unfold Study.goToQuiz
      rw [Store.getItem_setItem_ne _ _ _ _ (by decide), Store.getItem_setItem_self]
    have hmode : (Study.goToQuiz n b st).1.getItem "isQuizMode" =
        some (jsBoolToString b) := by
      unfold Study.goToQuiz
      rw [Store.getItem_setItem_self]
    constructor
    · unfold Quiz5.readNumQuestions
      rw [hnum]
      interval_cases n <;> decide
    · unfold Quiz5.readIsQuizMode
      rw [hmode]
      cases b <;> decide
  · intro st h
    unfold Quiz5.readNumQuestions
    rw [h]
    rfl

/-- Witness for C5 at question count 7, quiz mode on, an empty store. -/
theorem session_storage_roundtrip_witness :
    (Quiz5.readNumQuestions (Study.goToQuiz 7 true ([] : Store)).1 = 7 ∧
      Quiz5.readIsQuizMode (Study.goToQuiz 7 true ([] : Store)).1 = true) ∧
    Quiz5.readNumQuestions ([] : Store) = 5 :=
  ⟨session_storage_roundtrip.1 7 (by decide) (by decide) true ([] : Store),
    session_storage_roundtrip.2 ([] : Store) rfl⟩

/-- Claim C9: the reported score percentage counts unanswered questions
against the user: on a non-empty question set with at least one submitted
answer it is `Math.round` of `100 * (submitted and correct) / total`, and
it is 0 when nothing has been submitted. -/
theorem percentage_counts_unanswered_against_user (qs : List Question)
    (sel : List (String × Nat)) (sub : List (String × Bool)) (h1 : qs ≠ []) :
    (0 < countSubmitted qs sub →
      (Quiz5.calculateStats qs sel sub).percentage =
        Quiz5.jsRound (100 * (countCorrectSubmitted qs sel sub : ℚ) /
          (qs.length : ℚ))) ∧
    (countSubmitted qs sub = 0 →
      (Quiz5.calculateStats qs sel sub).percentage = 0) := by
  have hlen : ¬ qs.length = 0 := by
    simpa [List.length_eq_zero] using h1
  have hans : (qs.filter (Quiz5.statIsAnswered sub)).length = countSubmitted qs sub := by
    unfold countSubmitted
    rw [List.countP_eq_length_filter]
    rfl
  have hcor :
      (qs.filter (fun q =>
        Quiz5.statIsCorrect sel q && Quiz5.statIsAnswered sub q)).length =
      countCorrectSubmitted qs sel sub := by
    unfold countCorrectSubmitted
    rw [List.countP_eq_length_filter]
    rfl
  constructor
  · intro h2
    unfold Quiz5.calculateStats
    rw [if_neg hlen]
    simp only [hans, hcor, h2, if_pos]
    congr 1
    ring
  · intro h2
    unfold Quiz5.calculateStats
    rw [if_neg hlen]
    simp [hans, h2]

/-- Witness for C9: two questions, one submitted and correct, one never
submitted; the score is round(100·1/2) = 50, and with nothing submitted it
is 0. -/
theorem percentage_counts_unanswered_against_user_witness :
    (Quiz5.calculateStats
        [⟨"q1", 2, "", false⟩, ⟨"q2", 1, "", false⟩]
        [("q1", 2)] [("q1", true)]).percentage = 50 ∧
    (Quiz5.calculateStats
        [⟨"q1", 2, "", false⟩, ⟨"q2", 1, "", false⟩]
        [("q1", 2)] []).percentage = 0 := by
  constructor
  · have h := (percentage_counts_unanswered_against_user
      [⟨"q1", 2, "", false⟩, ⟨"q2", 1, "", false⟩]
      [("q1", 2)] [("q1", true)] (List.cons_ne_nil _ _)).1 (by decide)
    rw [h]
    have hc : countCorrectSubmitted
        [⟨"q1", 2, "", false⟩, ⟨"q2", 1, "", false⟩]
        [("q1", 2)] [("q1", true)] = 1 := by decide
    rw [hc]
    norm_num [Quiz5.jsRound]
  · exact (percentage_counts_unanswered_against_user
      [⟨"q1", 2, "", false⟩, ⟨"q2", 1, "", false⟩]
      [("q1", 2)] [] (List.cons_ne_nil _ _)).2 (by decide)

/-- Claim C4: with a summary present, the quiz page first issues
`GET /api/get-quiz` and calls `/api/generate-quiz` exactly when the
existing-questions request (with success) returns zero questions; the page
starts in the preview state with no answer submitted. -/
theorem fetch_or_generate_then_preview (summary : String)
    (ex : Quiz5.GetQuizResp) (gen : Except ApiError Quiz5.GenQuizResp)
    (hs : summary ≠ "") (hx : ex.success = true) :
    (Quiz5.fetchQuizMount summary (.ok ex) gen).requests.head? =
      some "/api/get-quiz" ∧
    (((Quiz5.fetchQuizMount summary (.ok ex) gen).requests.contains
        "/api/generate-quiz") = true ↔ ex.questions.length = 0) ∧
    (0 < ex.questions.length →
      (Quiz5.fetchQuizMount summary (.ok ex) gen).questions = ex.questions) ∧
    Quiz5.initIsPreviewing = true ∧
    Quiz5.initSubmittedAnswers = [] := by
  have hsf : (summary == "") = false := by
    simpa using hs
  by_cases hq : ex.questions.length = 0
  · rcases gen with e | g
    · simp [Quiz5.fetchQuizMount, hsf, hq, Quiz5.initIsPreviewing,
        Quiz5.initSubmittedAnswers]
    · rcases hgq : g.questions with _ | qs <;> rcases hgs : g.success <;>
        simp [Quiz5.fetchQuizMount, hsf, hq, hgq, hgs, Quiz5.initIsPreviewing,
          Quiz5.initSubmittedAnswers] <;>
        split <;> simp
  · have hq' : 0 < ex.questions.length := Nat.pos_of_ne_zero hq
    simp [Quiz5.fetchQuizMount, hsf, hx, hq', hq, Quiz5.initIsPreviewing,
      Quiz5.initSubmittedAnswers]

/-- Witness for C4 at a concrete summary and one existing question. -/
theorem fetch_or_generate_then_preview_witness :
    (Quiz5.fetchQuizMount "sum"
        (.ok ⟨true, [⟨"q1", 0, "", false⟩]⟩)
        (.error ⟨"Error", none, none, none, "unused"⟩)).requests.head? =
      some "/api/get-quiz" ∧
    (((Quiz5.fetchQuizMount "sum"
        (.ok ⟨true, [⟨"q1", 0, "", false⟩]⟩)
        (.error ⟨"Error", none, none, none, "unused"⟩)).requests.contains
        "/api/generate-quiz") = true ↔
      ([⟨"q1", 0, "", false⟩] : List Question).length = 0) ∧
    (0 < ([⟨"q1", 0, "", false⟩] : List Question).length →
      (Quiz5.fetchQuizMount "sum"
        (.ok ⟨true, [⟨"q1", 0, "", false⟩]⟩)
        (.error ⟨"Error", none, none, none, "unused"⟩)).questions =
        [⟨"q1", 0, "", false⟩]) ∧
    Quiz5.initIsPreviewing = true ∧
    Quiz5.initSubmittedAnswers = [] :=
  fetch_or_generate_then_preview "sum"
    ⟨true, [⟨"q1", 0, "", false⟩]⟩
    (.error ⟨"Error", none, none, none, "unused"⟩)
    (by decide) rfl

/-- One file selection keeps the stored selection at five files or fewer. -/
theorem UploadP.handleFileSelect_le_five (files : List String)
    (s : UploadP.SelectState) :
    ((UploadP.handleFileSelect files s).1).selectedFiles.length ≤ 5 := by
  unfold UploadP.handleFileSelect
  by_cases h : 5 < files.length
  · simp [h]
  · simp [h, Nat.le_of_not_lt h]

/-- Any sequence of file selections keeps the stored selection at five
files or fewer. -/
theorem UploadP.runSelects_le_five (selects : List (List String)) :
    (UploadP.runSelects selects).selectedFiles.length ≤ 5 := by
  unfold UploadP.runSelects
  have h : ∀ (l : List (List String)) (s : UploadP.SelectState),
      s.selectedFiles.length ≤ 5 →
      ((l.foldl (fun s fs => (UploadP.handleFileSelect fs s).1) s)).selectedFiles.length ≤ 5 := by
    intro l
    induction l with
    | nil => intro s hs; simpa using hs
    | cons fs rest ih =>
        intro s _
        exact ih _ (UploadP.handleFileSelect_le_five fs s)
  exact h _ UploadP.initSelectState (by decide)

/-- Claim C10: selecting more than five files is rejected before any
network request — the selection is cleared, an error is shown, no request
is issued — and from any reachable selection state the upload batch holds
at most five PDFs. -/
theorem five_file_limit (files : List String) (s : UploadP.SelectState)
    (h : 5 < files.length) :
    (UploadP.handleFileSelect files s).1.selectedFiles = [] ∧
    (UploadP.handleFileSelect files s).1.error =
      "You can only upload up to 5 PDFs at once. Please select fewer files." ∧
    (UploadP.handleFileSelect files s).2 = [] ∧
    (∀ selects : List (List String),
      (UploadP.uploadBatch (UploadP.runSelects selects)).length ≤ 5) := by
  refine ⟨?_, ?_, ?_, ?_⟩
  · simp [UploadP.handleFileSelect, h]
  · simp [UploadP.handleFileSelect, h]
  · simp [UploadP.handleFileSelect, h]
  · intro selects
    have := UploadP.runSelects_le_five selects
    simpa [UploadP.uploadBatch] using this

/-- Witness for C10 at a concrete six-file selection. -/
theorem five_file_limit_witness :
    (UploadP.handleFileSelect ["a", "b", "c", "d", "e", "f"]
        UploadP.initSelectState).1.selectedFiles = [] ∧
    (UploadP.handleFileSelect ["a", "b", "c", "d", "e", "f"]
        UploadP.initSelectState).1.error =
      "You can only upload up to 5 PDFs at once. Please select fewer files." ∧
    (UploadP.handleFileSelect ["a", "b", "c", "d", "e", "f"]
        UploadP.initSelectState).2 = [] ∧
    (∀ selects : List (List String),
      (UploadP.uploadBatch (UploadP.runSelects selects)).length ≤ 5) :=
  five_file_limit ["a", "b", "c", "d", "e", "f"] UploadP.initSelectState
    (by decide)

/-- Counterexample to C1: on the login page's submit handler, a 401 does
not redirect to `/login` and does not clear the authenticated flag — it
only shows `Invalid credentials`. -/
theorem login_401_does_not_redirect :
    (Login.handleSubmitCatch
        ⟨"Error", some 401, none, none, "Request failed with status code 401"⟩
        ⟨"", true, none⟩).nav ≠ some "/login" ∧
    (Login.handleSubmitCatch
        ⟨"Error", some 401, none, none, "Request failed with status code 401"⟩
        ⟨"", true, none⟩).isAuthenticated = true ∧
    (Login.handleSubmitCatch
        ⟨"Error", some 401, none, none, "Request failed with status code 401"⟩
        ⟨"", true, none⟩).error = "Invalid credentials" := by
  refine ⟨?_, rfl, rfl⟩
  intro h
  simp [Login.handleSubmitCatch] at h

/-- Amended C1: the handlers that inspect the response status — the
Upload_pdfs upload, the Study_session available-PDF fetch and summary
generation, and the Dashboard upload — react to a 401 by clearing the
authenticated flag and navigating to `/login`; but not every operation
does: the login submit handler shows `Invalid credentials` without
redirecting or touching the flag, and the regeneration handlers only set
an error message. -/
theorem amended_401_redirect_coverage (e : ApiError) (v : AuthView)
    (s : Dash.State) (h : e.status = some 401) (hn : e.name ≠ "AbortError")
    (hfiles : s.files.length ≠ 0) :
    (UploadP.handleUploadFilesCatch e v).isAuthenticated = false ∧
    (UploadP.handleUploadFilesCatch e v).nav = some "/login" ∧
    (Study.fetchAvailablePdfsCatch e v).isAuthenticated = false ∧
    (Study.fetchAvailablePdfsCatch e v).nav = some "/login" ∧
    (Study.generateSummaryCatch e v).isAuthenticated = false ∧
    (Study.generateSummaryCatch e v).nav = some "/login" ∧
    (Dash.uploadPDFs s (.err e)).isAuthenticated = false ∧
    (Dash.uploadPDFs s (.err e)).nav = some "/login" ∧
    (Login.handleSubmitCatch e v).isAuthenticated = v.isAuthenticated ∧
    (Login.handleSubmitCatch e v).nav = v.nav ∧
    (Login.handleSubmitCatch e v).error = "Invalid credentials" ∧
    (Study.regenerateSummaryCatch e v).isAuthenticated = v.isAuthenticated ∧
    (Study.regenerateSummaryCatch e v).nav = v.nav ∧
    (Dash.regenerateSummaryCatch e s).isAuthenticated = s.isAuthenticated ∧
    (Dash.regenerateSummaryCatch e s).nav = s.nav := by
  have hn' : (e.name == "AbortError") = false := by
    simpa using hn
  simp [UploadP.handleUploadFilesCatch, Study.fetchAvailablePdfsCatch,
    Study.generateSummaryCatch, Dash.uploadPDFs, Login.handleSubmitCatch,
    Study.regenerateSummaryCatch, Dash.regenerateSummaryCatch,
    h, hn', hfiles]

/-- Witness for the amended C1 at a concrete 401 error. -/
theorem amended_401_redirect_coverage_witness :
    (UploadP.handleUploadFilesCatch
        ⟨"Error", some 401, none, none, "boom"⟩ ⟨"", true, none⟩).isAuthenticated
      = false ∧
    (UploadP.handleUploadFilesCatch
        ⟨"Error", some 401, none, none, "boom"⟩ ⟨"", true, none⟩).nav
      = some "/login" ∧
    (Study.fetchAvailablePdfsCatch
        ⟨"Error", some 401, none, none, "boom"⟩ ⟨"", true, none⟩).isAuthenticated
      = false ∧
    (Study.fetchAvailablePdfsCatch
        ⟨"Error", some 401, none, none, "boom"⟩ ⟨"", true, none⟩).nav
      = some "/login" ∧
    (Study.generateSummaryCatch
        ⟨"Error", some 401, none, none, "boom"⟩ ⟨"", true, none⟩).isAuthenticated
      = false ∧
    (Study.generateSummaryCatch
        ⟨"Error", some 401, none, none, "boom"⟩ ⟨"", true, none⟩).nav
      = some "/login" ∧
    (Dash.uploadPDFs ⟨["a.pdf"], 0, "", false, "", false, true, none, 0⟩
        (.err ⟨"Error", some 401, none, none, "boom"⟩)).isAuthenticated = false ∧
    (Dash.uploadPDFs ⟨["a.pdf"], 0, "", false, "", false, true, none, 0⟩
        (.err ⟨"Error", some 401, none, none, "boom"⟩)).nav = some "/login" ∧
    (Login.handleSubmitCatch
        ⟨"Error", some 401, none, none, "boom"⟩ ⟨"", true, none⟩).isAuthenticated
      = (⟨"", true, none⟩ : AuthView).isAuthenticated ∧
    (Login.handleSubmitCatch
        ⟨"Error", some 401, none, none, "boom"⟩ ⟨"", true, none⟩).nav
      = (⟨"", true, none⟩ : AuthView).nav ∧
    (Login.handleSubmitCatch
        ⟨"Error", some 401, none, none, "boom"⟩ ⟨"", true, none⟩).error
      = "Invalid credentials" ∧
    (Study.regenerateSummaryCatch
        ⟨"Error", some 401, none, none, "boom"⟩ ⟨"", true, none⟩).isAuthenticated
      = (⟨"", true, none⟩ : AuthView).isAuthenticated ∧
    (Study.regenerateSummaryCatch
        ⟨"Error", some 401, none, none, "boom"⟩ ⟨"", true, none⟩).nav
      = (⟨"", true, none⟩ : AuthView).nav ∧
    (Dash.regenerateSummaryCatch ⟨"Error", some 401, none, none, "boom"⟩
        ⟨["a.pdf"], 0, "", false, "", false, true, none, 0⟩).isAuthenticated
      = (⟨["a.pdf"], 0, "", false, "", false, true, none, 0⟩ : Dash.State).isAuthenticated ∧
    (Dash.regenerateSummaryCatch ⟨"Error", some 401, none, none, "boom"⟩
        ⟨["a.pdf"], 0, "", false, "", false, true, none, 0⟩).nav
      = (⟨["a.pdf"], 0, "", false, "", false, true, none, 0⟩ : Dash.State).nav :=
  amended_401_redirect_coverage
    ⟨"Error", some 401, none, none, "boom"⟩ ⟨"", true, none⟩
    ⟨["a.pdf"], 0, "", false, "", false, true, none, 0⟩
    rfl (by decide) (by decide)

/-- Counterexample to C7: the client does constrain user input — a
question count of 25 is clamped to 20 before being forwarded, and a
six-file selection is rejected instead of being forwarded. -/
theorem client_constrains_input :
    Study.numQuestionsOnChange "25" = 20 ∧
    Study.numQuestionsOnChange "25" ≠ 25 ∧
    (UploadP.handleFileSelect ["a", "b", "c", "d", "e", "f"]
        UploadP.initSelectState).1.selectedFiles ≠
      ["a", "b", "c", "d", "e", "f"] ∧
    (UploadP.handleFileSelect ["a", "b", "c", "d", "e", "f"]
        UploadP.initSelectState).1.error ≠ "" := by
  refine ⟨by decide, by decide, ?_, ?_⟩ <;> decide

/-- Amended C7: the client does not forward every user input unchanged;
it enforces client-side constraints on each of the claim's enumerated
input kinds, including: the study-session page clamps the entered question
count into 1..20; the upload page rejects selections of more than 5 files
(clearing the selection, issuing no request) while storing within-limit
selections unchanged; the Dashboard file selection keeps only PDF-typed
files and rejects selections containing no PDF; and both quiz pages
refuse to change the selected answer of a submitted question. -/
theorem amended_client_side_constraints :
    (∀ v : String, 1 ≤ Study.numQuestionsOnChange v ∧
      Study.numQuestionsOnChange v ≤ 20) ∧
    (∀ (files : List String) (s : UploadP.SelectState), 5 < files.length →
      (UploadP.handleFileSelect files s).1.selectedFiles = [] ∧
      (UploadP.handleFileSelect files s).2 = []) ∧
    (∀ (files : List String) (s : UploadP.SelectState), files.length ≤ 5 →
      (UploadP.handleFileSelect files s).1.selectedFiles = files) ∧
    (∀ sel : List Dash.FileInput,
      (∀ f ∈ (Dash.handleFileSelect sel).1, f.fileType = "application/pdf") ∧
      ((sel.filter (fun f => f.fileType == "application/pdf")).length = 0 →
        Dash.handleFileSelect sel = ([], "Please select at least one PDF file"))) ∧
    (∀ (submitted : List (String × Bool)) (selected : List (String × Nat))
        (qid : String) (idx : Nat), jsGet submitted qid = some true →
      Quiz5.handleAnswerSelect submitted selected qid idx = selected ∧
      QuizJsx.handleAnswerSelect submitted selected qid idx = selected) := by
  refine ⟨?_, ?_, ?_, ?_, ?_⟩
  · intro v
    unfold Study.numQuestionsOnChange
    constructor
    · exact le_max_left 1 _
    · exact max_le (by norm_num) (min_le_left 20 _)
  · intro files s h
    constructor <;> simp [UploadP.handleFileSelect, h]
  · intro files s h
    simp [UploadP.handleFileSelect, Nat.not_lt.mpr h]
  · intro sel
    constructor
    · intro f hf
      unfold Dash.handleFileSelect at hf
      by_cases h : 0 <
          (sel.filter (fun f => f.fileType == "application/pdf")).length
      · rw [if_pos h] at hf
        have := List.mem_filter.mp hf
        simpa using this.2
      · rw [if_neg h] at hf
        simp at hf
    · intro h
      unfold Dash.handleFileSelect
      rw [if_neg (by simp [h])]
  · intro submitted selected qid idx h
    constructor <;>
      simp [Quiz5.handleAnswerSelect, QuizJsx.handleAnswerSelect, h]

/-- Witness for the amended C7 at question count 25, six-, two- and
mixed-type file selections, and a submitted quiz answer. -/
theorem amended_client_side_constraints_witness :
    (1 ≤ Study.numQuestionsOnChange "25" ∧
      Study.numQuestionsOnChange "25" ≤ 20) ∧
    ((UploadP.handleFileSelect ["a", "b", "c", "d", "e", "f"]
        UploadP.initSelectState).1.selectedFiles = [] ∧
      (UploadP.handleFileSelect ["a", "b", "c", "d", "e", "f"]
        UploadP.initSelectState).2 = []) ∧
    (UploadP.handleFileSelect ["a", "b"]
        UploadP.initSelectState).1.selectedFiles = ["a", "b"] ∧
    ((∀ f ∈ (Dash.handleFileSelect
        [⟨"a.pdf", "application/pdf"⟩, ⟨"b.txt", "text/plain"⟩]).1,
      f.fileType = "application/pdf") ∧
      Dash.handleFileSelect [⟨"b.txt", "text/plain"⟩] =
        ([], "Please select at least one PDF file")) ∧
    (Quiz5.handleAnswerSelect [("q2", true)] [("q2", 1)] "q2" 3 = [("q2", 1)] ∧
      QuizJsx.handleAnswerSelect [("q2", true)] [("q2", 1)] "q2" 3 = [("q2", 1)]) :=
  ⟨amended_client_side_constraints.1 "25",
    amended_client_side_constraints.2.1 ["a", "b", "c", "d", "e", "f"]
      UploadP.initSelectState (by decide),
    amended_client_side_constraints.2.2.1 ["a", "b"]
      UploadP.initSelectState (by decide),
    ⟨(amended_client_side_constraints.2.2.2.1
        [⟨"a.pdf", "application/pdf"⟩, ⟨"b.txt", "text/plain"⟩]).1,
      (amended_client_side_constraints.2.2.2.1
        [⟨"b.txt", "text/plain"⟩]).2 (by decide)⟩,
    amended_client_side_constraints.2.2.2.2 [("q2", true)] [("q2", 1)] "q2" 3
      (by decide)⟩
